import Mathlib

/-!
# Verification of `clflops.cpp`

A shallow embedding of the OpenCL FLOPS micro-benchmark `clflops.cpp`,
together with theorems settling the specification claims about it.

Modelling conventions:

* 32-bit floating-point values are modelled as rationals (`ℚ`); the C++
  constant `1.0E-6` is modelled as `1/1000000`.
* `std::default_random_engine` (libstdc++: `minstd_rand0`, the
  Lehmer linear congruential generator `x ↦ 16807·x mod 2147483647`
  with default seed 1) is modelled exactly over `Nat` by `lcg_next`.
* `std::uniform_real_distribution<float> dist(min, max)` applied to the
  engine is modelled by its standard contract: the engine is advanced
  once and its output `s` (in `[1, 2147483646]` for valid states) is
  mapped affinely onto `[min, max)` as `min + (max-min)·(s-1)/2147483646`
  (the subtraction `s-1` is `Nat` subtraction, which agrees with the
  source for every reachable engine output since those are ≥ 1).
* Console I/O is modelled as a trace of events, each an output channel
  (stdout or stderr) paired with a structured message; one message
  constructor per `cout`/`cerr` statement of the source, with the
  `iostream` text formatting abstracted into the constructor's fields.
* The OpenCL runtime is an external collaborator: a device is a record
  of the attributes the program queries plus opaque functions giving the
  buffer contents produced by each kernel and the measured elapsed times.
* `exit(n)` is modelled by returning a terminating outcome carrying `n`.
-/

/-- Modulus of `minstd_rand0`, the libstdc++ `default_random_engine`. -/
def lcg_m : Nat := 2147483647

/-- Multiplier of `minstd_rand0`. -/
def lcg_a : Nat := 16807

/-- One step of `default_random_engine`: `x ↦ 16807·x mod 2147483647`. -/
def lcg_next (s : Nat) : Nat := (lcg_a * s) % lcg_m

/-- Default seed of `default_random_engine` (both the `static` engine in
`initialize_data` and the fresh local engine in `verify_data` start here). -/
def lcg_default_seed : Nat := 1

/-- The value `uniform_real_distribution(min, max)` produces from engine
output `s`: `min + (max-min)·(s-1)/2147483646`, in `[min, max)` whenever
`min < max` (engine outputs lie in `[1, 2147483646]`). -/
def dist_value (mn mx : ℚ) (s : Nat) : ℚ :=
  mn + (mx - mn) * (((s - 1 : Nat) : ℚ) / 2147483646)

/-- One call `dist(gen)`: advance the engine, map its output. Returns the
drawn value and the new engine state. -/
def dist_draw (mn mx : ℚ) (s : Nat) : ℚ × Nat :=
  (dist_value mn mx (lcg_next s), lcg_next s)

/-- Embedding of `initialize_data` (clflops.cpp:38-48): resize the vector
to `size` elements, fill it with successive draws of
`uniform_real_distribution(min, max)` from the (static, hence threaded)
engine state `s`. Returns the filled vector and the engine state after. -/
def initialize_data (s : Nat) (size : Nat) (mn mx : ℚ) : List ℚ × Nat :=
  match size with
  | 0 => ([], s)
  | n + 1 =>
    let d := dist_draw mn mx s
    let rest := initialize_data d.2 n mn mx
    (d.1 :: rest.1, rest.2)

/-- The expected sequence the Verifier regenerates: `n` draws of
`uniform_real_distribution(min, max)` from a freshly default-constructed
engine, exactly as `verify_data`'s local `default_random_engine gen;`
produces them. -/
def expected_seq (n : Nat) (mn mx : ℚ) : List ℚ :=
  (initialize_data lcg_default_seed n mn mx).1

/-- `std::abs` on the modelled values (kept executable by cases rather
than through the lattice `|·|`; `absQ_eq_abs` links the two). -/
def absQ (q : ℚ) : ℚ := if q < 0 then -q else q

/-- Loop of `verify_data` (clflops.cpp:58-62): for each element, draw
`dist(gen)` and fail if `|elem*elem - draw| > 1.0E-6`. -/
def verify_go (mn mx : ℚ) : List ℚ → Nat → Bool
  | [], _ => true
  | d :: rest, s =>
    let e := dist_draw mn mx s
    if absQ (d * d - e.1) > 1 / 1000000 then false
    else verify_go mn mx rest e.2

/-- Embedding of `verify_data` (clflops.cpp:52-64): compare each element's
square against a fresh default-seeded generator's draws within absolute
tolerance `1.0E-6`. -/
def verify_data (data : List ℚ) (mn mx : ℚ) : Bool :=
  verify_go mn mx data lcg_default_seed

/-! ## Console I/O model

One event per `cout`/`cerr` statement of the source, tagged with its
output channel. Message payloads carry the data the statement formats. -/

/-- An output channel of the process: `std::cout` or `std::cerr`. -/
inductive Chan
  | stdout
  | stderr
  deriving DecidableEq, Repr

/-- One console message per output statement of `clflops.cpp`, with
`iostream` formatting abstracted into structured fields. -/
inductive Msg
  /-- clflops.cpp:196 `"No platforms found. Verify runtime installation."` -/
  | noPlatforms
  /-- clflops.cpp:75-76 platform group header: the vendor string and the
  platform-name string actually printed (`it++->VENDOR`, `it->NAME`). -/
  | listHeader (vendor : String) (pname : String)
  /-- clflops.cpp:78-79 `"[" << i << "] " << device name`. -/
  | listLine (i : Nat) (dname : String)
  /-- clflops.cpp:95-96 `"Unidentified size prefix \"" << prefix << "\""`,
  carrying the rejected suffix token. -/
  | badSuffix (sfx : String)
  /-- clflops.cpp:221 `"Unexpected case in getopt switch"`. -/
  | unexpectedOpt
  /-- clflops.cpp:233 `"No device " << device_index << " found."`. -/
  | noDevice (i : Nat)
  /-- clflops.cpp:241 `"Error opening vectorops.cl for reading"`. -/
  | fileOpenError
  /-- clflops.cpp:105 the device name line opening a device's report. -/
  | deviceName (dname : String)
  /-- clflops.cpp:112 `"Error building. Verify OpenCL installation."`. -/
  | buildError
  /-- clflops.cpp:113 the program build log (`CL_PROGRAM_BUILD_LOG`). -/
  | buildLog (log : String)
  /-- clflops.cpp:125 the left-padded `"Range Based:"` label. -/
  | rangeLabel
  /-- clflops.cpp:159 the padded `"Element Based:"` label. -/
  | elementLabel
  /-- clflops.cpp:149/177 `"Invalid computation from device."`. -/
  | invalidComputation
  /-- clflops.cpp:153/181 `size/time/1.0E6 << "M Elements Per Second"`,
  carrying the element count and the measured elapsed seconds. -/
  | throughput (elems : Nat) (elapsed : ℚ)
  /-- clflops.cpp:182 the blank line separating devices. -/
  | blank
  deriving DecidableEq, Repr

/-- A console event: channel paired with message. -/
abbrev Ev := Chan × Msg

/-! ## External-runtime data model -/

/-- A `cl::Platform` as consumed by the program: vendor string, name
string, and the opaque `cl_platform_id` (modelled as a `Nat`, nonzero for
real platforms). -/
structure Platform where
  vendor : String
  pname : String
  id : Nat
  deriving DecidableEq, Repr

/-- A `cl::Device` as consumed by the program: the attributes queried via
`getInfo`, plus the external collaborator's behaviour — whether the kernel
program builds, its build log, the buffer contents each kernel leaves in
device memory (as a function of the uploaded buffer), and the elapsed
wall-clock seconds measured around each dispatch. -/
structure Device where
  dname : String
  platform : Nat
  maxComputeUnits : Nat
  buildOk : Bool
  buildLog : String
  range_result : List ℚ → List ℚ
  element_result : List ℚ → List ℚ
  rangeElapsed : ℚ
  elementElapsed : ℚ

/-- Placeholder device for out-of-range `List.getD` lookups (the source
indexes `devices[device_index]` only after a range check). -/
def defaultDevice : Device :=
  { dname := "", platform := 0, maxComputeUnits := 0, buildOk := true,
    buildLog := "", range_result := fun b => b,
    element_result := fun b => b, rangeElapsed := 1, elementElapsed := 1 }

instance : Inhabited Device := ⟨defaultDevice⟩

/-! ## `list_devices` (clflops.cpp:67-81) -/

/-- Vendor of `platforms[j]`; out-of-range reads (possible because the
source advances its platform iterator past the end) yield `""`. -/
def vendorAt (platforms : List Platform) (j : Nat) : String :=
  (platforms.getD j ⟨"", "", 0⟩).vendor

/-- Platform name of `platforms[j]`, `""` when out of range. -/
def pnameAt (platforms : List Platform) (j : Nat) : String :=
  (platforms.getD j ⟨"", "", 0⟩).pname

/-- Loop of `list_devices`: `i` is the running device index, `it` the
platform-iterator position, `id` the platform id of the current group
(initially `0`). At a group boundary the source prints
`it++->getInfo<CL_PLATFORM_VENDOR>()` followed by
`it->getInfo<CL_PLATFORM_NAME>()` — the vendor of the platform at `it`
and the *name of the platform after it*, then leaves `it` advanced. -/
def list_devices_loop (platforms : List Platform) :
    List Device → Nat → Nat → Nat → List Ev
  | [], _, _, _ => []
  | d :: rest, i, it, id =>
    if d.platform ≠ id then
      (Chan.stdout, Msg.listHeader (vendorAt platforms it) (pnameAt platforms (it + 1))) ::
      (Chan.stdout, Msg.listLine i d.dname) ::
      list_devices_loop platforms rest (i + 1) (it + 1) d.platform
    else
      (Chan.stdout, Msg.listLine i d.dname) ::
      list_devices_loop platforms rest (i + 1) it id

/-- Embedding of `list_devices` (clflops.cpp:67-81). -/
def list_devices (platforms : List Platform) (devices : List Device) : List Ev :=
  list_devices_loop platforms devices 0 0 0

/-! ## `set_memory_test_size` (clflops.cpp:84-99) and the positional
device-index extraction (clflops.cpp:231) -/

/-- Decimal value of a digit string, as `operator>>` accumulates it. -/
def digitsVal (ds : List Char) : Nat :=
  ds.foldl (fun a c => a * 10 + (c.toNat - 48)) 0

/-- `stream >> (unsigned long)`: skip whitespace, read the maximal digit
run; C++11 stores 0 when no digit is found (extraction failure). Returns
the stored value and the unconsumed rest of the stream. Sign characters
and out-of-range values are outside the claims' scope and not modelled. -/
def extract_ulong (cs : List Char) : Nat × List Char :=
  let cs' := cs.dropWhile Char.isWhitespace
  (digitsVal (cs'.takeWhile Char.isDigit), cs'.dropWhile Char.isDigit)

/-- `stream >> (std::string)`: skip whitespace, read one
whitespace-delimited token (empty on end of stream). -/
def extract_token (cs : List Char) : String :=
  ((cs.dropWhile Char.isWhitespace).takeWhile (fun c => !c.isWhitespace)).asString

/-- Embedding of `set_memory_test_size` (clflops.cpp:84-99): read an
unsigned long then a token from the argument; suffix `M`/`m` scales by
1E6, `G`/`g` by 1E9, any other nonempty token is fatal (`.error` carries
the diagnosed token; the source prints it and calls `exit(1)`). The
source's scaling multiplies through `double`; that is exact for the
products the theorems below cover, and is modelled as exact `Nat`
multiplication. -/
def set_memory_test_size (s : String) : Except String Nat :=
  let r := extract_ulong s.data
  let sfx := extract_token r.2
  if sfx = "M" ∨ sfx = "m" then .ok (r.1 * 1000000)
  else if sfx = "G" ∨ sfx = "g" then .ok (r.1 * 1000000000)
  else if sfx.length ≠ 0 then .error sfx
  else .ok r.1

/-- Embedding of `stringstream(argv[optind]) >> device_index`
(clflops.cpp:231) into the 32-bit `unsigned`, following libstdc++'s
`num_get` (`_M_extract_int`): whitespace is skipped; one leading `'+'`
or `'-'` is consumed; the digit run after it is accumulated, storing
`UINT_MAX` (with failbit) when the run overflows the target type; a
leading `'-'` negates the accumulated value modulo `2^32`; and an empty
digit run (including an empty stream) is an extraction failure, which
since C++11 stores 0. -/
def parse_device_index (s : String) : Nat :=
  match s.data.dropWhile Char.isWhitespace with
  | [] => 0
  | c :: rest =>
    let body := if c = '+' ∨ c = '-' then rest else c :: rest
    let ds := body.takeWhile Char.isDigit
    if ds.isEmpty then 0
    else if digitsVal ds > 2 ^ 32 - 1 then 2 ^ 32 - 1
    else if c = '-' then (2 ^ 32 - digitsVal ds) % 2 ^ 32
    else digitsVal ds

/-! ## `run_vector_ops` (clflops.cpp:103-183) -/

/-- Outcome of one `run_vector_ops` call: the console events it emits, the
exit code if it called `exit`, and the host `data` vector as it stands
after the call (the source takes `data` by reference). -/
structure RunResult where
  events : List Ev
  exited : Option Nat
  hostData : List ℚ
  deriving DecidableEq, Repr

/-- Embedding of `run_vector_ops` (clflops.cpp:103-183), following the
source's statement order: print the device name; build the program (on
failure print a notice to `cerr`, the build log to `cout`, and
`exit(1)`); create the buffer and write `data` into it; print the
"Range Based:" label; run the range kernel and time it; read back the
first `data.size()/100` elements and verify; on verification failure
print to `cerr` and return, else print the throughput line; re-upload
`data`; print the "Element Based:" label; run the element kernel; read
back and verify the same-sized subset; on failure print to `cerr` and
return, else print the throughput line and a blank separator line. -/
def run_vector_ops (device : Device) (data : List ℚ) : RunResult :=
  let ev0 : List Ev := [(Chan.stdout, Msg.deviceName device.dname)]
  if device.buildOk = false then
    { events := ev0 ++ [(Chan.stderr, Msg.buildError),
                        (Chan.stdout, Msg.buildLog device.buildLog)],
      exited := some 1, hostData := data }
  else
    let verifyN := data.length / 100
    let ev1 := ev0 ++ [(Chan.stdout, Msg.rangeLabel)]
    let buff1 := device.range_result data
    if verify_data (buff1.take verifyN) 0 1 = false then
      { events := ev1 ++ [(Chan.stderr, Msg.invalidComputation)],
        exited := none, hostData := data }
    else
      let ev2 := ev1 ++ [(Chan.stdout, Msg.throughput data.length device.rangeElapsed)]
      let buff2 := device.element_result data
      let ev3 := ev2 ++ [(Chan.stdout, Msg.elementLabel)]
      if verify_data (buff2.take verifyN) 0 1 = false then
        { events := ev3 ++ [(Chan.stderr, Msg.invalidComputation)],
          exited := none, hostData := data }
      else
        { events := ev3 ++ [(Chan.stdout, Msg.throughput data.length device.elementElapsed),
                            (Chan.stdout, Msg.blank)],
          exited := none, hostData := data }

/-- Outcome of a sequence of benchmark passes (the driver's per-device
loop, clflops.cpp:253-254). -/
structure BatchResult where
  events : List Ev
  exited : Option Nat
  hostData : List ℚ
  deriving DecidableEq, Repr

/-- The driver's loop over all devices (clflops.cpp:253-254): each device
is benchmarked in turn against the host vector as the previous call left
it; a call that exits the process cuts the loop short. -/
def benchmark_all (devs : List Device) (data : List ℚ) : BatchResult :=
  match devs with
  | [] => { events := [], exited := none, hostData := data }
  | d :: ds =>
    let r := run_vector_ops d data
    match r.exited with
    | some c => { events := r.events, exited := some c, hostData := r.hostData }
    | none =>
      let rest := benchmark_all ds r.hostData
      { events := r.events ++ rest.events, exited := rest.exited,
        hostData := rest.hostData }

/-! ## `main` (clflops.cpp:185-258)

`getopt(argc, argv, ":ls:")` is libc; its output is modelled as the list
of recognised options in processing order (`'l'`, `'s'` with its
`optarg`, or the default case for `'?'`/`':'`), plus the optional first
positional argument (`argv[optind]`). -/

/-- One option as delivered by `getopt`. -/
inductive Opt
  | l
  | s (optarg : String)
  | other
  deriving DecidableEq, Repr

/-- The `while (getopt...)` loop (clflops.cpp:209-224), threading the
`list_devices_flag` and `memory_test_size` variables. The first `-l`
prints the listing and sets the flag; later ones hit the early `break`.
`-s` re-parses `memory_test_size`; a bad suffix or an unrecognised
option exits — modelled by `none` in the second component, with the
events emitted so far in the first. -/
def getopt_loop (platforms : List Platform) (devices : List Device) :
    List Opt → Bool → Nat → List Ev × Option (Bool × Nat)
  | [], flag, size => ([], some (flag, size))
  | Opt.l :: rest, flag, size =>
    if flag then getopt_loop platforms devices rest flag size
    else
      let r := getopt_loop platforms devices rest true size
      (list_devices platforms devices ++ r.1, r.2)
  | Opt.s arg :: rest, flag, _ =>
    match set_memory_test_size arg with
    | .ok size' => getopt_loop platforms devices rest flag size'
    | .error sfx => ([(Chan.stderr, Msg.badSuffix sfx)], none)
  | Opt.other :: _, _, _ => ([(Chan.stderr, Msg.unexpectedOpt)], none)

/-- Outcome of a whole process run: console events and exit status. -/
structure MainResult where
  events : List Ev
  exitCode : Nat
  deriving DecidableEq, Repr

/-- Embedding of `main` (clflops.cpp:185-258). Inputs stand for the
external world: the enumerated platforms, the devices gathered across
them in platform order (clflops.cpp:200-204), the `getopt` stream, the
optional positional argument, and the contents of `vectorops.cl`
(`none` = the file does not open). Flow, in source order: fail fatally
when no platform exists; run the option loop (which may list devices or
exit); `exit(0)` if listing was requested; validate the positional
device index against the device count; read the kernel source file;
generate the data (`memory_test_size / sizeof(float)` elements from the
static engine, first use, so seed 1); benchmark the selected device or
every device; return 0 (or propagate an `exit` from the benchmark). -/
def main_model (platforms : List Platform) (devices : List Device)
    (opts : List Opt) (positional : Option String)
    (clFile : Option String) : MainResult :=
  if platforms.isEmpty then
    { events := [(Chan.stderr, Msg.noPlatforms)], exitCode := 1 }
  else
    let g := getopt_loop platforms devices opts false 512000000
    match g.2 with
    | none => { events := g.1, exitCode := 1 }
    | some (flag, size) =>
      if flag then { events := g.1, exitCode := 0 }
      else
        let idx := match positional with
          | some s => some (parse_device_index s)
          | none => none
        match idx with
        | some i =>
          if i ≥ devices.length then
            { events := g.1 ++ [(Chan.stderr, Msg.noDevice i)], exitCode := 1 }
          else
            match clFile with
            | none => { events := g.1 ++ [(Chan.stderr, Msg.fileOpenError)], exitCode := 1 }
            | some _ =>
              let data := (initialize_data lcg_default_seed (size / 4) 0 1).1
              let r := run_vector_ops (devices.getD i defaultDevice) data
              { events := g.1 ++ r.events,
                exitCode := match r.exited with | some c => c | none => 0 }
        | none =>
          match clFile with
          | none => { events := g.1 ++ [(Chan.stderr, Msg.fileOpenError)], exitCode := 1 }
          | some _ =>
            let data := (initialize_data lcg_default_seed (size / 4) 0 1).1
            let b := benchmark_all devices data
            { events := g.1 ++ b.events,
              exitCode := match b.exited with | some c => c | none => 0 }

/-- A listing-only device description (benchmark behaviour irrelevant). -/
def listedDevice (nm : String) (pid : Nat) : Device :=
  { defaultDevice with dname := nm, platform := pid }

/-- Two platforms, one device each: the concrete system of spec
scenario A's family on which the listing claim is decided. -/
def twoPlatforms : List Platform :=
  [⟨"VendorA", "PlatA", 1⟩, ⟨"VendorB", "PlatB", 2⟩]

/-- The devices enumerated from `twoPlatforms`, in platform order. -/
def twoDevices : List Device :=
  [listedDevice "dev0" 1, listedDevice "dev1" 2]

/-- A device whose kernel program fails to build, with log `"LOG"`. -/
def badBuildDevice : Device :=
  { defaultDevice with dname := "dev", buildOk := false, buildLog := "LOG" }

/-- Recogniser for the throughput result line among console events. -/
def isThroughput (e : Ev) : Bool :=
  match e.2 with
  | Msg.throughput _ _ => true
  | _ => false

/-- The host data used for the C4 witness: 100 zero elements, so the
verification readback subset has one element. -/
def witnessData : List ℚ := List.replicate 100 0

/-- A device that builds fine but whose range kernel leaves all-ones in
the buffer, which fails verification (`|1·1 - first draw| > 1.0E-6`). -/
def badComputeDevice : Device :=
  { defaultDevice with dname := "dev", range_result := fun _ => List.replicate 100 1 }

/-- A single-platform, single-device system used by the driver witnesses:
the device builds fine and its kernels leave the buffer unchanged. -/
def soloPlatform : List Platform := [⟨"V", "P", 1⟩]

/-- The device list of the solo system. -/
def soloDevices : List Device := [listedDevice "d" 1]

/-! ## Theorems -/

theorem absQ_eq_abs (q : ℚ) : absQ q = |q| := by
  unfold absQ
  by_cases h : q < 0
  · simp [h, abs_of_neg h]
  · simp [h, abs_of_nonneg (le_of_not_lt h)]

theorem dist_value_mem (mn mx : ℚ) (h : mn < mx) (s : Nat) (hs : s < lcg_m) :
    mn ≤ dist_value mn mx s ∧ dist_value mn mx s < mx := by
  unfold dist_value
  have hs1 : ((s - 1 : Nat) : ℚ) ≥ 0 := by positivity
  have hs2 : ((s - 1 : Nat) : ℚ) ≤ 2147483645 := by
    have : (s - 1 : Nat) ≤ 2147483645 := by
      unfold lcg_m at hs; omega
    exact_mod_cast this
  constructor
  · have : (mx - mn) * (((s - 1 : Nat) : ℚ) / 2147483646) ≥ 0 := by
      apply mul_nonneg (by linarith) (by positivity)
    linarith
  · have hlt : (((s - 1 : Nat) : ℚ) / 2147483646) < 1 := by
      rw [div_lt_one (by norm_num)]
      linarith
    nlinarith [sub_pos.mpr h]

theorem lcg_next_lt (s : Nat) : lcg_next s < lcg_m := by
  unfold lcg_next lcg_m
  exact Nat.mod_lt _ (by norm_num)

theorem initialize_data_length (s n : Nat) (mn mx : ℚ) :
    (initialize_data s n mn mx).1.length = n := by
  induction n generalizing s with
  | zero => rfl
  | succ k ih => simp [initialize_data, ih]

/-! ## Helper lemmas -/

theorem verify_go_iff (mn mx : ℚ) (data : List ℚ) (s : Nat) :
    verify_go mn mx data s = true ↔
      ∀ p ∈ data.zip (initialize_data s data.length mn mx).1,
        |p.1 * p.1 - p.2| ≤ 1 / 1000000 := by
  induction data generalizing s with
  | nil => simp [verify_go]
  | cons d rest ih =>
    simp only [verify_go, List.length_cons, initialize_data, dist_draw]
    rw [absQ_eq_abs]
    by_cases h : |d * d - dist_value mn mx (lcg_next s)| > 1 / 1000000
    · simp only [h, if_true]
      constructor
      · intro hfalse; exact absurd hfalse (by simp)
      · intro hall
        have := hall (d, dist_value mn mx (lcg_next s)) (by simp [List.zip])
        exact absurd this (not_le.mpr h)
    · simp only [h, if_false]
      rw [ih (lcg_next s)]
      constructor
      · intro hrest p hp
        rcases List.mem_cons.mp hp with heq | hmem
        · subst heq; exact le_of_not_lt h
        · exact hrest p hmem
      · intro hall p hp
        exact hall p (List.mem_cons_of_mem _ hp)

/-! ## Claims -/

/-- **C8.** For every non-negative length `n` (including zero) and every
range `[min, max)` with `min < max` (the default is `[0,1)`), the Data
Generator `initialize_data` produces a sequence of exactly `n`
pseudo-random elements, each value lying within `[min, max)`, from any
engine state `s`. -/
theorem C8_generator_length_and_range (s n : Nat) (mn mx : ℚ) (h : mn < mx) :
    (initialize_data s n mn mx).1.length = n ∧
      ∀ x ∈ (initialize_data s n mn mx).1, mn ≤ x ∧ x < mx := by
  refine ⟨initialize_data_length s n mn mx, ?_⟩
  induction n generalizing s with
  | zero => simp [initialize_data]
  | succ k ih =>
    intro x hx
    simp only [initialize_data, dist_draw, List.mem_cons] at hx
    rcases hx with heq | hmem
    · subst heq
      exact dist_value_mem mn mx h (lcg_next s) (lcg_next_lt s)
    · exact ih (lcg_next s) x hmem

/-- Witness for C8 at `s = 1`, `n = 2`, range `[0, 1)`. -/
theorem C8_generator_length_and_range_witness :
    (0 : ℚ) < 1 ∧
      ((initialize_data 1 2 0 1).1.length = 2 ∧
        ∀ x ∈ (initialize_data 1 2 0 1).1, 0 ≤ x ∧ x < 1) :=
  ⟨by norm_num, C8_generator_length_and_range 1 2 0 1 (by norm_num)⟩

/-- **C1 (counterexample).** The claim says a readback sequence equal to
the regenerated expected sequence passes. It does not: `verify_data`
compares the *square* of each readback element against the expected
draw, so the length-1 readback equal to the expected sequence for the
default range `[0,1)` (the single value `16806/2147483646 ≈ 7.8e-6`,
whose square differs from it by more than `1.0E-6`) is rejected. -/
theorem C1_verifier_counterexample :
    verify_data (expected_seq 1 0 1) 0 1 = false := by
  norm_num [verify_data, expected_seq, initialize_data, verify_go, dist_draw,
            dist_value, lcg_next, lcg_a, lcg_m, lcg_default_seed, absQ]

/-- **C1 (amended).** For every readback subset, the Verifier regenerates
an equal-length expected sequence using the same `[min,max)` range and
the same deterministic generator semantics (a fresh default-seeded
engine) and compares element-wise with absolute tolerance `1.0E-6`: it
returns pass iff every element's **square** differs from its
corresponding expected value by at most the tolerance; in particular a
readback whose element squares equal the expected values passes, and any
single element whose square differs by more than the tolerance causes a
fail result. -/
theorem C1_verifier_amended (data : List ℚ) (mn mx : ℚ) :
    verify_data data mn mx = true ↔
      (expected_seq data.length mn mx).length = data.length ∧
        ∀ p ∈ data.zip (expected_seq data.length mn mx),
          |p.1 * p.1 - p.2| ≤ 1 / 1000000 := by
  unfold verify_data expected_seq
  rw [verify_go_iff]
  simp [initialize_data_length]

/-- **C2 (code bug).** The claim (and the spec) say each platform-group
header pairs a platform's vendor with *that same platform's* name. The
source prints `it++->getInfo<VENDOR>` then `it->getInfo<NAME>`, pairing
platform `i`'s vendor with platform `i+1`'s name (and, for the last
group, reading past the end of the platform vector). On two platforms
with one device each, the first header pairs `"VendorA"` with
`"PlatB"`, and the second pairs `"VendorB"` with the out-of-range read
(modelled as `""`); the index-prefixed device lines themselves are as
claimed. -/
theorem C2_listing_header_bug :
    list_devices twoPlatforms twoDevices =
      [(Chan.stdout, Msg.listHeader "VendorA" "PlatB"),
       (Chan.stdout, Msg.listLine 0 "dev0"),
       (Chan.stdout, Msg.listHeader "VendorB" ""),
       (Chan.stdout, Msg.listLine 1 "dev1")] := by
  simp [list_devices, list_devices_loop, twoPlatforms, twoDevices,
        listedDevice, defaultDevice, vendorAt, pnameAt]

/-- The host vector is returned unchanged by every `run_vector_ops`
branch: no statement of the function writes into `data`. -/
theorem run_vector_ops_hostData (d : Device) (data : List ℚ) :
    (run_vector_ops d data).hostData = data := by
  unfold run_vector_ops
  split <;> [rfl; skip]
  dsimp only
  split <;> [rfl; skip]
  split <;> rfl

/-- **C3 (counterexample).** The claim says the build diagnostic log goes
to the error stream. On a device whose build fails, the source prints
the notice to `cerr` but the build log itself to `cout`
(clflops.cpp:113): the log event is on stdout and no log event is on
stderr. -/
theorem C3_build_log_counterexample :
    (run_vector_ops badBuildDevice []).events =
      [(Chan.stdout, Msg.deviceName "dev"),
       (Chan.stderr, Msg.buildError),
       (Chan.stdout, Msg.buildLog "LOG")] ∧
      (Chan.stderr, Msg.buildLog "LOG") ∉ (run_vector_ops badBuildDevice []).events := by
  constructor
  · simp [run_vector_ops, badBuildDevice, defaultDevice]
  · simp [run_vector_ops, badBuildDevice, defaultDevice]

/-- **C3 (amended).** If kernel compilation fails for a device, a failure
notice is printed to the error stream, the build diagnostic log is
printed to the standard-output stream (not the error stream), and the
whole process terminates with exit status 1; the two streams are kept
distinct. -/
theorem C3_build_failure_amended (device : Device) (data : List ℚ)
    (h : device.buildOk = false) :
    (run_vector_ops device data).exited = some 1 ∧
      (Chan.stderr, Msg.buildError) ∈ (run_vector_ops device data).events ∧
      (Chan.stdout, Msg.buildLog device.buildLog) ∈ (run_vector_ops device data).events ∧
      Chan.stdout ≠ Chan.stderr := by
  simp [run_vector_ops, h]

/-- Witness for C3 (amended) on `badBuildDevice`. -/
theorem C3_build_failure_amended_witness :
    badBuildDevice.buildOk = false ∧
      ((run_vector_ops badBuildDevice []).exited = some 1 ∧
        (Chan.stderr, Msg.buildError) ∈ (run_vector_ops badBuildDevice []).events ∧
        (Chan.stdout, Msg.buildLog badBuildDevice.buildLog) ∈
          (run_vector_ops badBuildDevice []).events ∧
        Chan.stdout ≠ Chan.stderr) :=
  ⟨rfl, C3_build_failure_amended badBuildDevice [] rfl⟩

/-- **C4.** Whenever verification of a variant's readback fails (for the
range variant, or for the element variant after the range variant
passed), the failure is reported on the error stream, that variant's
throughput line is not printed (no throughput event when the range
variant fails, exactly the range variant's one when the element variant
fails), the call does not exit the process, and the driver's loop
continues with the next device, which receives the same host data. -/
theorem C4_verification_failure_recoverable (d : Device) (ds : List Device)
    (data : List ℚ) (hb : d.buildOk = true)
    (hf : verify_data ((d.range_result data).take (data.length / 100)) 0 1 = false ∨
      (verify_data ((d.range_result data).take (data.length / 100)) 0 1 = true ∧
        verify_data ((d.element_result data).take (data.length / 100)) 0 1 = false)) :
    (Chan.stderr, Msg.invalidComputation) ∈ (run_vector_ops d data).events ∧
      (run_vector_ops d data).events.countP isThroughput =
        (if verify_data ((d.range_result data).take (data.length / 100)) 0 1 then 1 else 0) ∧
      (run_vector_ops d data).exited = none ∧
      (benchmark_all (d :: ds) data).events =
        (run_vector_ops d data).events ++ (benchmark_all ds data).events := by
  have hcont : ∀ h : (run_vector_ops d data).exited = none,
      (benchmark_all (d :: ds) data).events =
        (run_vector_ops d data).events ++ (benchmark_all ds data).events := by
    intro h
    simp [benchmark_all, h, run_vector_ops_hostData]
  rcases hf with hr | ⟨hr, he⟩
  · have hev : run_vector_ops d data =
        { events := [(Chan.stdout, Msg.deviceName d.dname), (Chan.stdout, Msg.rangeLabel),
                     (Chan.stderr, Msg.invalidComputation)],
          exited := none, hostData := data } := by
      unfold run_vector_ops
      simp [hb, hr]
    refine ⟨?_, ?_, ?_, hcont (by simp [hev])⟩
    · simp [hev]
    · simp [hev, hr, List.countP_cons, isThroughput]
    · simp [hev]
  · have hev : run_vector_ops d data =
        { events := [(Chan.stdout, Msg.deviceName d.dname), (Chan.stdout, Msg.rangeLabel),
                     (Chan.stdout, Msg.throughput data.length d.rangeElapsed),
                     (Chan.stdout, Msg.elementLabel),
                     (Chan.stderr, Msg.invalidComputation)],
          exited := none, hostData := data } := by
      unfold run_vector_ops
      simp [hb, hr, he]
    refine ⟨?_, ?_, ?_, hcont (by simp [hev])⟩
    · simp [hev]
    · simp [hev, hr, List.countP_cons, isThroughput]
    · simp [hev]

/-- Witness for C4: `badComputeDevice`'s range variant fails verification;
the failure is reported, no throughput line is printed, the process is
not aborted, and the loop continues with the next device. -/
theorem C4_verification_failure_recoverable_witness :
    badComputeDevice.buildOk = true ∧
      verify_data ((badComputeDevice.range_result witnessData).take
        (witnessData.length / 100)) 0 1 = false ∧
      ((Chan.stderr, Msg.invalidComputation) ∈
          (run_vector_ops badComputeDevice witnessData).events ∧
        (run_vector_ops badComputeDevice witnessData).events.countP isThroughput =
          (if verify_data ((badComputeDevice.range_result witnessData).take
            (witnessData.length / 100)) 0 1 then 1 else 0) ∧
        (run_vector_ops badComputeDevice witnessData).exited = none ∧
        (benchmark_all [badComputeDevice, defaultDevice] witnessData).events =
          (run_vector_ops badComputeDevice witnessData).events ++
            (benchmark_all [defaultDevice] witnessData).events) := by
  have hfail : verify_data ((badComputeDevice.range_result witnessData).take
      (witnessData.length / 100)) 0 1 = false := by
    norm_num [badComputeDevice, defaultDevice, witnessData, verify_data, verify_go,
              dist_draw, dist_value, lcg_next, lcg_a, lcg_m, lcg_default_seed, absQ]
  exact ⟨rfl, hfail,
    C4_verification_failure_recoverable badComputeDevice [defaultDevice] witnessData
      rfl (Or.inl hfail)⟩

/-- Definitional unfolding of a non-empty `benchmark_all` run. -/
theorem benchmark_all_cons (d : Device) (ds : List Device) (data : List ℚ) :
    benchmark_all (d :: ds) data =
      match (run_vector_ops d data).exited with
      | some c => { events := (run_vector_ops d data).events, exited := some c,
                    hostData := (run_vector_ops d data).hostData }
      | none =>
        { events := (run_vector_ops d data).events ++
            (benchmark_all ds (run_vector_ops d data).hostData).events,
          exited := (benchmark_all ds (run_vector_ops d data).hostData).exited,
          hostData := (benchmark_all ds (run_vector_ops d data).hostData).hostData } :=
  rfl

/-- **C9.** A benchmark pass never writes to the host data vector:
`run_vector_ops` returns it unchanged in every branch, so after
benchmarking any number of devices in sequence the host buffer still
equals the original sequence, and each device in the driver's loop
receives exactly the original data (the recursive call runs on the same
vector the first device received). -/
theorem C9_host_data_immutable :
    (∀ (d : Device) (data : List ℚ), (run_vector_ops d data).hostData = data) ∧
      (∀ (devs : List Device) (data : List ℚ),
        (benchmark_all devs data).hostData = data) ∧
      ∀ (d : Device) (ds : List Device) (data : List ℚ),
        benchmark_all (d :: ds) data =
          match (run_vector_ops d data).exited with
          | some c => { events := (run_vector_ops d data).events, exited := some c,
                        hostData := data }
          | none => { events := (run_vector_ops d data).events ++
                        (benchmark_all ds data).events,
                      exited := (benchmark_all ds data).exited,
                      hostData := (benchmark_all ds data).hostData } := by
  have hall : ∀ (devs : List Device) (data : List ℚ),
      (benchmark_all devs data).hostData = data := by
    intro devs
    induction devs with
    | nil => intro data; rfl
    | cons d ds ih =>
      intro data
      rw [benchmark_all_cons]
      cases h : (run_vector_ops d data).exited with
      | some c => simpa [h] using run_vector_ops_hostData d data
      | none => simp [h, run_vector_ops_hostData, ih]
  refine ⟨run_vector_ops_hostData, hall, ?_⟩
  intro d ds data
  rw [benchmark_all_cons]
  cases h : (run_vector_ops d data).exited with
  | some c => simp [h, run_vector_ops_hostData]
  | none => simp [h, run_vector_ops_hostData]

/-! ## Stream-extraction lemmas for the size and index parsers -/

theorem digit_not_ws (c : Char) (h : c.isDigit = true) : c.isWhitespace = false := by
  simp [Char.isDigit] at h
  simp only [Char.isWhitespace, Bool.or_eq_false_iff]
  refine ⟨⟨⟨?_, ?_⟩, ?_⟩, ?_⟩ <;>
  · simp only [decide_eq_false_iff_not]
    intro hc
    subst hc
    simp at h

theorem takeWhile_digits_append (ds r : List Char)
    (hdig : ∀ c ∈ ds, c.isDigit = true)
    (hr : ∀ c, r.head? = some c → c.isDigit = false) :
    (ds ++ r).takeWhile Char.isDigit = ds ∧
      (ds ++ r).dropWhile Char.isDigit = r := by
  induction ds with
  | nil =>
    cases r with
    | nil => simp
    | cons c r' =>
      have := hr c rfl
      simp [List.takeWhile, List.dropWhile, this]
  | cons c ds' ih =>
    have hc : c.isDigit = true := hdig c (by simp)
    have := ih (fun x hx => hdig x (by simp [hx]))
    simp [List.takeWhile, List.dropWhile, hc, this.1, this.2]

theorem dropWhile_ws_digits (ds r : List Char) (hne : ds ≠ [])
    (hdig : ∀ c ∈ ds, c.isDigit = true) :
    (ds ++ r).dropWhile Char.isWhitespace = ds ++ r := by
  cases ds with
  | nil => exact absurd rfl hne
  | cons c ds' =>
    have hc : c.isWhitespace = false := digit_not_ws c (hdig c (by simp))
    simp [List.dropWhile, hc]

theorem extract_ulong_split (ds r : List Char) (hne : ds ≠ [])
    (hdig : ∀ c ∈ ds, c.isDigit = true)
    (hr : ∀ c, r.head? = some c → c.isDigit = false) :
    extract_ulong (ds ++ r) = (digitsVal ds, r) := by
  simp only [extract_ulong]
  rw [dropWhile_ws_digits ds r hne hdig,
      (takeWhile_digits_append ds r hdig hr).1,
      (takeWhile_digits_append ds r hdig hr).2]

theorem extract_token_all (r : List Char)
    (hws : ∀ c ∈ r, c.isWhitespace = false) :
    extract_token r = r.asString := by
  have htake : ∀ l : List Char, (∀ c ∈ l, c.isWhitespace = false) →
      l.takeWhile (fun c => !c.isWhitespace) = l := by
    intro l
    induction l with
    | nil => intro _; rfl
    | cons c l' ih =>
      intro hl
      simp only [List.takeWhile, hl c (by simp), Bool.not_false, ih
        (fun x hx => hl x (by simp [hx]))]
  have hdrop : r.dropWhile Char.isWhitespace = r := by
    cases r with
    | nil => rfl
    | cons c r' => simp [List.dropWhile, hws c (by simp)]
  unfold extract_token
  rw [hdrop, htake r hws]

/-- **C5.** For every valid size string of the form `"<int>"`,
`"<int>M"`/`"<int>m"`, `"<int>G"`/`"<int>g"` (with `<int>` a nonempty
digit run denoting `n`), the size parser stores `n`, `n×1e6`, `n×1e9`
bytes respectively; for any other non-empty suffix token (one starting
with a non-digit, containing no whitespace) it rejects the argument
naming that token, and the driver then prints the diagnostic on the
error stream and exits with status 1. The bound on `n` keeps the
source's `double`-mediated scaling (`memory_test_size *= 1E6`) exact, so
the exact model is faithful there. -/
theorem C5_size_argument (ds : List Char) (n : Nat) (sfx : String)
    (hne : ds ≠ []) (hdig : ∀ c ∈ ds, c.isDigit = true)
    (hval : digitsVal ds = n) (_hbound : n ≤ 9000000) :
    set_memory_test_size ds.asString = .ok n ∧
      ((sfx = "M" ∨ sfx = "m") →
        set_memory_test_size (ds.asString ++ sfx) = .ok (n * 1000000)) ∧
      ((sfx = "G" ∨ sfx = "g") →
        set_memory_test_size (ds.asString ++ sfx) = .ok (n * 1000000000)) ∧
      (sfx.data ≠ [] →
        (∀ c, sfx.data.head? = some c → c.isDigit = false) →
        (∀ c ∈ sfx.data, c.isWhitespace = false) →
        sfx ≠ "M" → sfx ≠ "m" → sfx ≠ "G" → sfx ≠ "g" →
        set_memory_test_size (ds.asString ++ sfx) = .error sfx ∧
          ∀ (platforms : List Platform) (devices : List Device)
            (pos : Option String) (cl : Option String), platforms ≠ [] →
            main_model platforms devices [Opt.s (ds.asString ++ sfx)] pos cl =
              { events := [(Chan.stderr, Msg.badSuffix sfx)], exitCode := 1 }) := by
  refine ⟨?_, ?_, ?_, ?_⟩
  · have hsplit := extract_ulong_split ds [] hne hdig (by intro c hc; simp at hc)
    rw [List.append_nil] at hsplit
    simp only [set_memory_test_size]
    rw [show (ds.asString).data = ds from rfl, hsplit, hval,
        show extract_token [] = "" from rfl]
    simp
  · rintro (rfl | rfl)
    · have hsplit := extract_ulong_split ds ['M'] hne hdig
        (by intro c hc; simp at hc; subst hc; decide)
      simp only [set_memory_test_size]
      rw [show (ds.asString ++ "M").data = ds ++ ['M'] from rfl, hsplit, hval,
          show extract_token ['M'] = "M" from rfl]
      simp
    · have hsplit := extract_ulong_split ds ['m'] hne hdig
        (by intro c hc; simp at hc; subst hc; decide)
      simp only [set_memory_test_size]
      rw [show (ds.asString ++ "m").data = ds ++ ['m'] from rfl, hsplit, hval,
          show extract_token ['m'] = "m" from rfl]
      simp
  · rintro (rfl | rfl)
    · have hsplit := extract_ulong_split ds ['G'] hne hdig
        (by intro c hc; simp at hc; subst hc; decide)
      simp only [set_memory_test_size]
      rw [show (ds.asString ++ "G").data = ds ++ ['G'] from rfl, hsplit, hval,
          show extract_token ['G'] = "G" from rfl]
      simp
    · have hsplit := extract_ulong_split ds ['g'] hne hdig
        (by intro c hc; simp at hc; subst hc; decide)
      simp only [set_memory_test_size]
      rw [show (ds.asString ++ "g").data = ds ++ ['g'] from rfl, hsplit, hval,
          show extract_token ['g'] = "g" from rfl]
      simp
  · intro hsne hshead hsws hM hm' hG hg'
    have hsplit := extract_ulong_split ds sfx.data hne hdig hshead
    have hparse : set_memory_test_size (ds.asString ++ sfx) = .error sfx := by
      simp only [set_memory_test_size]
      rw [show (ds.asString ++ sfx).data = ds ++ sfx.data from rfl, hsplit,
          extract_token_all sfx.data hsws,
          show sfx.data.asString = sfx from rfl]
      have hlen : sfx.length ≠ 0 := by
        intro h0
        exact hsne (List.length_eq_zero.mp h0)
      simp [hM, hm', hG, hg', hlen]
    refine ⟨hparse, ?_⟩
    intro platforms devices pos cl hP
    have hPe : platforms.isEmpty = false := by
      simpa [List.isEmpty_iff] using hP
    have hg : getopt_loop platforms devices [Opt.s (ds.asString ++ sfx)] false 512000000 =
        ([(Chan.stderr, Msg.badSuffix sfx)], none) := by
      simp only [getopt_loop, hparse]
    simp only [main_model, hPe, Bool.false_eq_true, if_false, hg]

/-- Witness for C5 at `"100"` with suffix `"X"`: `"100"` parses to 100,
`"100M"` to `10^8`, `"100G"` to `10^11`, and `"100X"` is rejected naming
`"X"`, upon which the driver reports on stderr and exits 1. -/
theorem C5_size_argument_witness :
    (['1', '0', '0'] : List Char) ≠ [] ∧
      (∀ c ∈ (['1', '0', '0'] : List Char), c.isDigit = true) ∧
      digitsVal ['1', '0', '0'] = 100 ∧ 100 ≤ 9000000 ∧
      (set_memory_test_size (['1', '0', '0'] : List Char).asString = .ok 100 ∧
        ((("X" : String) = "M" ∨ ("X" : String) = "m") →
          set_memory_test_size ((['1', '0', '0'] : List Char).asString ++ "X") =
            .ok (100 * 1000000)) ∧
        ((("X" : String) = "G" ∨ ("X" : String) = "g") →
          set_memory_test_size ((['1', '0', '0'] : List Char).asString ++ "X") =
            .ok (100 * 1000000000)) ∧
        (("X" : String).data ≠ [] →
          (∀ c, ("X" : String).data.head? = some c → c.isDigit = false) →
          (∀ c ∈ ("X" : String).data, c.isWhitespace = false) →
          ("X" : String) ≠ "M" → ("X" : String) ≠ "m" →
          ("X" : String) ≠ "G" → ("X" : String) ≠ "g" →
          set_memory_test_size ((['1', '0', '0'] : List Char).asString ++ "X") =
            .error "X" ∧
            ∀ (platforms : List Platform) (devices : List Device)
              (pos : Option String) (cl : Option String), platforms ≠ [] →
              main_model platforms devices
                [Opt.s ((['1', '0', '0'] : List Char).asString ++ "X")] pos cl =
                { events := [(Chan.stderr, Msg.badSuffix "X")],
                  exitCode := 1 })) :=
  ⟨by decide, by decide, by decide, by decide,
    C5_size_argument ['1', '0', '0'] 100 "X" (by decide) (by decide)
      (by decide) (by decide)⟩

theorem getopt_loop_replicate_l_flagged (platforms : List Platform)
    (devices : List Device) (k : Nat) (sz : Nat) :
    getopt_loop platforms devices (List.replicate k Opt.l) true sz =
      ([], some (true, sz)) := by
  induction k with
  | zero => rfl
  | succ j ih => simpa [List.replicate, getopt_loop] using ih

/-- **C7.** Supplying the listing flag `-l` any positive number of times
(and nothing else) prints the device listing exactly once — the process
output is exactly one copy of the listing —, leaves the memory-test size
at whatever value `sz` it had (no benchmarking state is mutated), runs no
benchmark (regardless of any positional argument or kernel file), and
the process exits with status 0. -/
theorem C7_listing_idempotent (platforms : List Platform)
    (devices : List Device) (m : Nat) (pos : Option String)
    (cl : Option String) (sz : Nat) (hP : platforms ≠ []) (hm : 1 ≤ m) :
    main_model platforms devices (List.replicate m Opt.l) pos cl =
      { events := list_devices platforms devices, exitCode := 0 } ∧
      (getopt_loop platforms devices (List.replicate m Opt.l) false sz).2 =
        some (true, sz) := by
  obtain ⟨k, rfl⟩ : ∃ k, m = k + 1 := ⟨m - 1, by omega⟩
  have hPe : platforms.isEmpty = false := by
    simpa [List.isEmpty_iff] using hP
  have hloop : ∀ z : Nat,
      getopt_loop platforms devices (List.replicate (k + 1) Opt.l) false z =
        (list_devices platforms devices, some (true, z)) := by
    intro z
    simp [List.replicate, getopt_loop, getopt_loop_replicate_l_flagged]
  refine ⟨?_, by rw [hloop sz]⟩
  simp only [main_model, hPe, Bool.false_eq_true, if_false, hloop 512000000]
  simp

/-- The benchmarking function never exits the process when the kernel
program builds: only the compile-failure branch calls `exit`. -/
theorem run_vector_ops_exited_none (d : Device) (data : List ℚ)
    (hb : d.buildOk = true) :
    (run_vector_ops d data).exited = none := by
  unfold run_vector_ops
  simp only [hb, if_neg (show ¬(true = false) by simp)]
  split
  · rfl
  · split <;> rfl

/-- `run_vector_ops` never emits the out-of-range-index diagnostic. -/
theorem run_vector_ops_no_noDevice (d : Device) (data : List ℚ) (j : Nat) :
    (Chan.stderr, Msg.noDevice j) ∉ (run_vector_ops d data).events := by
  unfold run_vector_ops
  split
  · simp
  · dsimp only
    split
    · simp
    · split <;> simp

/-- **C6.** After any option processing that neither listed devices nor
exited (leaving parsed events `evs0` and size `sz`), a positional
argument parsing to index `i`: if `i < k` (the device-list size) the
index is accepted and exactly that one device is benchmarked (the
process output is `evs0` followed by that single device's benchmark
events); if `i ≥ k` the index is rejected with a diagnostic naming `i`
on the error stream and exit status 1 (regardless of the kernel file). -/
theorem C6_device_index_selection (platforms : List Platform)
    (devices : List Device) (opts : List Opt) (s : String) (i : Nat)
    (evs0 : List Ev) (sz : Nat) (code : String) (hP : platforms ≠ [])
    (hopt : getopt_loop platforms devices opts false 512000000 =
      (evs0, some (false, sz)))
    (hparse : parse_device_index s = i) :
    (i < devices.length →
      main_model platforms devices opts (some s) (some code) =
        { events := evs0 ++ (run_vector_ops (devices.getD i defaultDevice)
            (initialize_data lcg_default_seed (sz / 4) 0 1).1).events,
          exitCode := match (run_vector_ops (devices.getD i defaultDevice)
            (initialize_data lcg_default_seed (sz / 4) 0 1).1).exited with
            | some c => c
            | none => 0 }) ∧
      (devices.length ≤ i → ∀ cl : Option String,
        main_model platforms devices opts (some s) cl =
          { events := evs0 ++ [(Chan.stderr, Msg.noDevice i)],
            exitCode := 1 }) := by
  have hPe : platforms.isEmpty = false := by
    simpa [List.isEmpty_iff] using hP
  constructor
  · intro hlt
    have hnotge : ¬ i ≥ devices.length := not_le.mpr hlt
    simp only [main_model, hPe, Bool.false_eq_true, if_false, hopt, hparse,
               hnotge]
  · intro hge cl
    have hge' : i ≥ devices.length := hge
    simp only [main_model, hPe, Bool.false_eq_true, if_false, hopt, hparse,
               hge', if_true]

/-- Witness for C6 on the solo system with `-s 1` (so the generated data
is empty and the run is fully computable): index `"0"` is in range,
index handling proceeds to the single-device benchmark; the theorem also
yields the rejection conclusion for indices `≥ 1`. -/
theorem C6_device_index_selection_witness :
    soloPlatform ≠ [] ∧
      getopt_loop soloPlatform soloDevices [Opt.s "1"] false 512000000 =
        ([], some (false, 1)) ∧
      parse_device_index "0" = 0 ∧
      ((0 < soloDevices.length →
        main_model soloPlatform soloDevices [Opt.s "1"] (some "0") (some "k") =
          { events := [] ++ (run_vector_ops (soloDevices.getD 0 defaultDevice)
              (initialize_data lcg_default_seed (1 / 4) 0 1).1).events,
            exitCode := match (run_vector_ops (soloDevices.getD 0 defaultDevice)
              (initialize_data lcg_default_seed (1 / 4) 0 1).1).exited with
              | some c => c
              | none => 0 }) ∧
        (soloDevices.length ≤ 0 → ∀ cl : Option String,
          main_model soloPlatform soloDevices [Opt.s "1"] (some "0") cl =
            { events := [] ++ [(Chan.stderr, Msg.noDevice 0)],
              exitCode := 1 })) :=
  ⟨by simp [soloPlatform], rfl, rfl,
    C6_device_index_selection soloPlatform soloDevices [Opt.s "1"] "0" 0 [] 1
      "k" (by simp [soloPlatform]) rfl rfl⟩

/-- Witness for C7 on the solo system with `-l -l`. -/
theorem C7_listing_idempotent_witness :
    soloPlatform ≠ [] ∧ 1 ≤ 2 ∧
      (main_model soloPlatform soloDevices (List.replicate 2 Opt.l) none none =
        { events := list_devices soloPlatform soloDevices, exitCode := 0 } ∧
        (getopt_loop soloPlatform soloDevices (List.replicate 2 Opt.l) false
          512000000).2 = some (true, 512000000)) :=
  ⟨by simp [soloPlatform], by omega,
    C7_listing_idempotent soloPlatform soloDevices 2 none none 512000000
      (by simp [soloPlatform]) (by omega)⟩

/-- **C10.** If the positional device-index argument is present but is
non-numeric text — its first character is neither a digit, whitespace,
nor a sign character (sign-prefixed strings such as `"+5"` or `"-5"` do
extract a value and take the index range check instead) — extraction
fails and, as C++11 specifies, stores 0, so device 0 is benchmarked
(when at least one device exists and its program builds): the run's
output is the option events followed by device 0's benchmark events,
there is no usage diagnostic in the index handling or the benchmark,
and the exit status is 0. -/
theorem C10_nonnumeric_index_selects_device_zero (platforms : List Platform)
    (devices : List Device) (opts : List Opt) (s : String) (code : String)
    (evs0 : List Ev) (sz : Nat) (hP : platforms ≠ []) (hD : devices ≠ [])
    (hopt : getopt_loop platforms devices opts false 512000000 =
      (evs0, some (false, sz)))
    (hs : ∃ c cs, s.data = c :: cs ∧ c.isDigit = false ∧
      c.isWhitespace = false ∧ c ≠ '+' ∧ c ≠ '-')
    (hbuild : (devices.getD 0 defaultDevice).buildOk = true) :
    parse_device_index s = 0 ∧
      main_model platforms devices opts (some s) (some code) =
        { events := evs0 ++ (run_vector_ops (devices.getD 0 defaultDevice)
            (initialize_data lcg_default_seed (sz / 4) 0 1).1).events,
          exitCode := 0 } ∧
      ∀ j, (Chan.stderr, Msg.noDevice j) ∉
        (run_vector_ops (devices.getD 0 defaultDevice)
          (initialize_data lcg_default_seed (sz / 4) 0 1).1).events := by
  obtain ⟨c, cs, hdata, hcd, hcw, hcp, hcm⟩ := hs
  have hp0 : parse_device_index s = 0 := by
    unfold parse_device_index
    rw [hdata]
    simp [List.dropWhile, List.takeWhile, hcw, hcd, hcp, hcm]
  have hPe : platforms.isEmpty = false := by
    simpa [List.isEmpty_iff] using hP
  have hlen : ¬ 0 ≥ devices.length := by
    cases devices with
    | nil => exact absurd rfl hD
    | cons d ds => simp
  have hex := run_vector_ops_exited_none (devices.getD 0 defaultDevice)
    (initialize_data lcg_default_seed (sz / 4) 0 1).1 hbuild
  refine ⟨hp0, ?_, fun j => run_vector_ops_no_noDevice _ _ j⟩
  simp only [main_model, hPe, Bool.false_eq_true, if_false, hopt, hp0, hlen,
             hex]

/-- Witness for C10 on the solo system: positional argument `"abc"` with
`-s 1`. -/
theorem C10_nonnumeric_index_selects_device_zero_witness :
    soloPlatform ≠ [] ∧ soloDevices ≠ [] ∧
      getopt_loop soloPlatform soloDevices [Opt.s "1"] false 512000000 =
        ([], some (false, 1)) ∧
      (∃ c cs, ("abc" : String).data = c :: cs ∧ c.isDigit = false ∧
        c.isWhitespace = false ∧ c ≠ '+' ∧ c ≠ '-') ∧
      (soloDevices.getD 0 defaultDevice).buildOk = true ∧
      (parse_device_index "abc" = 0 ∧
        main_model soloPlatform soloDevices [Opt.s "1"] (some "abc")
            (some "k") =
          { events := [] ++ (run_vector_ops (soloDevices.getD 0 defaultDevice)
              (initialize_data lcg_default_seed (1 / 4) 0 1).1).events,
            exitCode := 0 } ∧
        ∀ j, (Chan.stderr, Msg.noDevice j) ∉
          (run_vector_ops (soloDevices.getD 0 defaultDevice)
            (initialize_data lcg_default_seed (1 / 4) 0 1).1).events) :=
  ⟨by simp [soloPlatform], by simp [soloDevices], rfl,
    ⟨'a', ['b', 'c'], rfl, by decide, by decide, by decide, by decide⟩, rfl,
    C10_nonnumeric_index_selects_device_zero soloPlatform soloDevices
      [Opt.s "1"] "abc" "k" [] 1 (by simp [soloPlatform])
      (by simp [soloDevices]) rfl
      ⟨'a', ['b', 'c'], rfl, by decide, by decide, by decide, by decide⟩ rfl⟩
